import Mathlib

/-!
Shallow embedding of the thumbnail-app export pipeline and renderers.

The JavaScript string primitives used by the source (`trim`, `startsWith`,
`includes`, `replace`, `encodeURIComponent`) are modelled explicitly on the
character lists underlying Lean strings.  The stateful export pipeline
(`downloadThumbnail`) is modelled as a pure function from the editor state and
an environment (fetch oracle, capture-strategy results) to a run result
recording the final state, the triggered downloads and the raised alerts.
-/

namespace ThumbnailApp

/-- Whitespace characters stripped by JS `String.prototype.trim` (ASCII part). -/
def isJsWhitespace (c : Char) : Bool :=
  c = ' ' || c = '\t' || c = '\n' || c = '\r' || c = '\x0b' || c = '\x0c'

/-- Strip leading and trailing whitespace from a character list. -/
def trimList (l : List Char) : List Char :=
  ((l.dropWhile isJsWhitespace).reverse.dropWhile isJsWhitespace).reverse

/-- Model of JS `value.trim()`. -/
def jsTrim (s : String) : String := ⟨trimList s.data⟩

/-- ASCII-only lowercasing, as performed by the `i` flag of the source regexes. -/
def lowerAsciiChar (c : Char) : Char :=
  if 65 ≤ c.toNat && c.toNat ≤ 90 then Char.ofNat (c.toNat + 32) else c

/-- Model of JS `value.startsWith(p)`. -/
def startsWithStr (s p : String) : Bool := p.data.isPrefixOf s.data

/-- Model of JS `value.includes(p)`. -/
def strContains (s p : String) : Bool :=
  (List.range (s.data.length + 1)).any fun i => p.data.isPrefixOf (s.data.drop i)

/-- Source `isDataUrl`: `value.startsWith('data:') || value.startsWith('blob:')`. -/
def isDataUrl (s : String) : Bool :=
  startsWithStr s ("data:") || startsWithStr s ("blob:")

/-- Source `isRemoteUrl`: `/^https?:\/\//i.test(value)`. -/
def isRemoteUrl (s : String) : Bool :=
  (s.data.take 7).map lowerAsciiChar = ("http://").data ||
  (s.data.take 8).map lowerAsciiChar = ("https://").data

/-- Source `isProxyUrl`: membership of either proxy marker substring. -/
def isProxyUrl (s : String) : Bool :=
  strContains s ("images.weserv.nl/?url=") || strContains s ("wsrv.nl/?url=")

/-- Uppercase hexadecimal digit for a value below 16. -/
def hexDigit (n : Nat) : Char :=
  if n < 10 then Char.ofNat (48 + n) else Char.ofNat (55 + n)

/-- Characters `encodeURIComponent` leaves unescaped. -/
def isUnreservedUriChar (c : Char) : Bool :=
  c.isAlphanum || c = '-' || c = '_' || c = '.' || c = '!' || c = '~' ||
  c = '*' || c = Char.ofNat 39 || c = '(' || c = ')'

/-- The UTF-8 bytes of the code point `n`. -/
def utf8Bytes (n : Nat) : List Nat :=
  if n < 128 then [n]
  else if n < 2048 then [192 + n / 64, 128 + n % 64]
  else if n < 65536 then [224 + n / 4096, 128 + n / 64 % 64, 128 + n % 64]
  else [240 + n / 262144, 128 + n / 4096 % 64, 128 + n / 64 % 64, 128 + n % 64]

/-- Percent-encoding of one byte (bytes are below 256, so the masks are no-ops). -/
def pctEncodeByte (b : Nat) : List Char :=
  ['%', hexDigit (b / 16 % 16), hexDigit (b % 16)]

/-- Encoding of a single character under `encodeURIComponent`. -/
def encChar (c : Char) : List Char :=
  if isUnreservedUriChar c then [c] else (utf8Bytes c.toNat).flatMap pctEncodeByte

/-- Model of the JS global `encodeURIComponent`. -/
def encodeURIComponent (s : String) : String := ⟨s.data.flatMap encChar⟩

/-- Scheme stripping of `buildProxyUrl`: `value.replace(/^https?:\/\//i, '')`. -/
def stripScheme (s : String) : String :=
  if (s.data.take 8).map lowerAsciiChar = ("https://").data then ⟨s.data.drop 8⟩
  else if (s.data.take 7).map lowerAsciiChar = ("http://").data then ⟨s.data.drop 7⟩
  else s

/-- Source `buildProxyUrl`. -/
def buildProxyUrl (value : String) : String :=
  ("https://images.weserv.nl/?url=") ++ encodeURIComponent (stripScheme value)

/-- Source `displayCardImage` memo: the display normalizer.  The source binds
`trimmed := cardImage.trim()` once; here the trimmed value is written out at
each use site. -/
def displayCardImage (cardImage : String) (useProxy : Bool) : String :=
  if jsTrim cardImage = ("") then jsTrim cardImage
  else if !useProxy || isDataUrl (jsTrim cardImage) || isProxyUrl (jsTrim cardImage) then
    jsTrim cardImage
  else if isRemoteUrl (jsTrim cardImage) then buildProxyUrl (jsTrim cardImage)
  else jsTrim cardImage

/-- Outcome of one `fetch` call: a thrown network error, or a response with its
`ok` flag and body. -/
inductive FetchResult where
  | failure : FetchResult
  | response (ok : Bool) (body : String) : FetchResult
deriving DecidableEq

/-- Whether a fetch outcome is a successful (`ok`) HTTP response. -/
def isOkResponse : FetchResult → Bool
  | FetchResult.response true _ => true
  | _ => false

/-- Body of a response (unused for failures). -/
def responseBody : FetchResult → String
  | FetchResult.response _ b => b
  | FetchResult.failure => ("")

/-- The candidate loop of `prepareImageForCapture`: body of the first candidate
whose fetch yields an `ok` response. -/
def firstSuccess (fetch : String → FetchResult) : List String → Option String
  | [] => none
  | c :: rest =>
    match fetch c with
    | FetchResult.response true body => some body
    | _ => firstSuccess fetch rest

/-- Source `prepareImageForCapture`.  `fetch` is the network oracle and
`toDataUrl` models `blobToDataUrl` applied to a response body.  The source
binds `trimmed := value.trim()` once; here the trimmed value is written out at
each use site. -/
def prepareImageForCapture (value : String) (proxyEnabled : Bool)
    (fetch : String → FetchResult) (toDataUrl : String → String) : String :=
  if jsTrim value = ("") || isDataUrl (jsTrim value) ||
      startsWithStr (jsTrim value) ("blob:") then jsTrim value
  else if !(isRemoteUrl (jsTrim value)) then jsTrim value
  else
    match firstSuccess fetch
        (if proxyEnabled then [buildProxyUrl (jsTrim value), jsTrim value]
         else [jsTrim value]) with
    | some body => toDataUrl body
    | none => jsTrim value

inductive TrendDirection where
  | up | down
deriving DecidableEq

inductive TemplateVariant where
  | classic | impact
deriving DecidableEq

inductive ExportFormat where
  | png | jpeg
deriving DecidableEq

/-- String interpolation of a trend value. -/
def trendStr : TrendDirection → String
  | TrendDirection.up => ("up")
  | TrendDirection.down => ("down")

/-- String interpolation of a template value. -/
def templateStr : TemplateVariant → String
  | TemplateVariant.classic => ("classic")
  | TemplateVariant.impact => ("impact")

/-- Source `formatFilename`. -/
def formatFilename (trend : TrendDirection) (format : ExportFormat)
    (template : TemplateVariant) : String :=
  ("pokemon-thumbnail-") ++ templateStr template ++ ("-") ++ trendStr trend ++
  (".") ++ (if format = ExportFormat.jpeg then ("jpg") else ("png"))

/-- An `<img>` element as inspected by `waitForImages`. -/
structure ImgElement where
  complete : Bool
  naturalWidth : Nat
deriving DecidableEq

/-- The event that can settle a pending image. -/
inductive ImgEvent where
  | load | error
deriving DecidableEq

/-- Source readiness test `img.complete && img.naturalWidth` (truthy width). -/
def imgReadyNow (img : ImgElement) : Bool :=
  img.complete && img.naturalWidth != 0

/-- One image's promise in `waitForImages` is settled: either it was already
ready, or its load-or-error event has fired. -/
def imgResolved (img : ImgElement) (ev : Option ImgEvent) : Bool :=
  imgReadyNow img || ev.isSome

/-- Resolution of `waitForImages`, given each image paired with the event (if
any) that has fired on it. -/
def waitForImagesResolved (imgs : List (ImgElement × Option ImgEvent)) : Bool :=
  imgs.length = 0 || imgs.all fun p => imgResolved p.1 p.2

/-- Model of `.replace(/^[+-]/, '')`: drop a single leading sign. -/
def dropLeadingSign (s : String) : String :=
  match s.data with
  | c :: rest => if c = '+' || c = '-' then ⟨rest⟩ else s
  | [] => s

/-- Model of `.replace(/%/g, '')`: remove every percent character. -/
def removePercent (s : String) : String := ⟨s.data.filter fun c => c ≠ '%'⟩

/-- Source `normalizedChange` of both renderers, including the `|| '0'` default. -/
def normalizedChange (changePercent : String) : String :=
  let n := removePercent (dropLeadingSign (jsTrim changePercent))
  if n = ("") then ("0") else n

/-- Source `changeText` of the classic renderer (`YoutubeThumbnail`). -/
def classicChangeText (changePercent : String) (trend : TrendDirection) : String :=
  (if trend = TrendDirection.down then ("-") else ("+")) ++
  normalizedChange changePercent ++ ("%")

/-- Source `changeText` of the impact renderer (`YoutubeThumbnailImpact`), computed by
the same expression as the classic one. -/
def impactChangeText (changePercent : String) (trend : TrendDirection) : String :=
  (if trend = TrendDirection.down then ("-") else ("+")) ++
  normalizedChange changePercent ++ ("%")

/-- Specification-side percent erasure: rebuild the string, skipping percent
characters. -/
def specStripPercents (l : List Char) : String :=
  l.foldr (fun c acc => if c = '%' then acc else String.singleton c ++ acc) ("")

/-- Specification-side normalization: drop one leading sign (via a direct
head test) from the trimmed input, erase every percent character by rebuilding
the remaining characters, and substitute zero when nothing remains. -/
def specNormalizedChange (s : String) : String :=
  let trimmed := jsTrim s
  let noSign :=
    if startsWithStr trimmed ("+") || startsWithStr trimmed ("-")
    then ⟨trimmed.data.drop 1⟩ else trimmed
  let noPct := specStripPercents noSign.data
  if noPct = ("") then ("0") else noPct

/-- The editor state touched by the export pipeline: the stored raw image
reference (`cardImage`) and the in-flight flag (`isDownloading`). -/
structure EditorState where
  cardImage : String
  isDownloading : Bool
deriving DecidableEq

/-- Environment of one export run: whether the preview root is attached, the
network oracle and blob conversion used by the inlining step, and the outcomes
of the two capture strategies (`exportWithHtmlToImage` / `exportWithHtml2Canvas`),
each either an encoded data URL or a thrown error message. -/
structure ExportEnv where
  hasRoot : Bool
  fetch : String → FetchResult
  toDataUrl : String → String
  primary : Except String String
  fallback : Except String String

/-- Observable result of an export run: the final editor state, the downloads
triggered as (data URL, filename) pairs, and the alerts shown to the user. -/
structure RunResult where
  state : EditorState
  downloads : List (String × String)
  alerts : List String
deriving DecidableEq

/-- The alert string built in the catch handler of `downloadThumbnail`; the
argument models `error.message`. -/
def alertMessage (msg : String) : String :=
  ("Download failed. Enable the image proxy or upload the image instead of using a URL. (")
  ++ msg ++ (")")

/-- Source `downloadThumbnail`, as a pure function over the environment.
Steps: entry guard on the root and the in-flight flag; mark in flight; inline
the image via `prepareImageForCapture`, swapping the displayed reference when
the prepared value is truthy and different; capture with the primary strategy,
falling back to the secondary on a thrown error; download on success, alert
with the error message when both strategies throw; finally restore the swapped
reference and clear the in-flight flag. -/
def downloadThumbnail (st : EditorState) (useProxy : Bool) (trend : TrendDirection)
    (exportFormat : ExportFormat) (template : TemplateVariant)
    (env : ExportEnv) : RunResult :=
  if !env.hasRoot || st.isDownloading then ⟨st, [], []⟩
  else
    let originalImage := st.cardImage
    let preparedImage := prepareImageForCapture st.cardImage useProxy env.fetch env.toDataUrl
    let shouldRestore := preparedImage != ("") && preparedImage != st.cardImage
    let displayedDuringCapture := if shouldRestore then preparedImage else originalImage
    let restoredImage := if shouldRestore then originalImage else displayedDuringCapture
    let filename := formatFilename trend exportFormat template
    match env.primary with
    | Except.ok dataUrl => ⟨⟨restoredImage, false⟩, [(dataUrl, filename)], []⟩
    | Except.error _ =>
      match env.fallback with
      | Except.ok fallbackUrl => ⟨⟨restoredImage, false⟩, [(fallbackUrl, filename)], []⟩
      | Except.error e => ⟨⟨restoredImage, false⟩, [], [alertMessage e]⟩

end ThumbnailApp

namespace ThumbnailApp

theorem data_append (a b : String) : (a ++ b).data = a.data ++ b.data := by
  cases a
  cases b
  rfl

theorem dropWhile_dropWhile_self (p : Char → Bool) (l : List Char) :
    (l.dropWhile p).dropWhile p = l.dropWhile p := by
  induction l with
  | nil => rfl
  | cons a l ih =>
    cases hpa : p a with
    | true => simp [List.dropWhile_cons, hpa, ih]
    | false => simp [List.dropWhile_cons, hpa]

theorem dropWhile_eq_self_of_forall (p : Char → Bool) (l : List Char)
    (h : ∀ c ∈ l, p c = false) : l.dropWhile p = l := by
  cases l with
  | nil => rfl
  | cons a l => simp [List.dropWhile_cons, h a (by simp)]

theorem exists_append_dropWhile (p : Char → Bool) (l : List Char) :
    ∃ u, u ++ l.dropWhile p = l := by
  induction l with
  | nil => exact ⟨[], rfl⟩
  | cons a l ih =>
    cases hpa : p a with
    | true =>
      obtain ⟨u, hu⟩ := ih
      exact ⟨a :: u, by simp [List.dropWhile_cons, hpa, hu]⟩
    | false => exact ⟨[], by simp [List.dropWhile_cons, hpa]⟩

theorem head_not_of_dropWhile_eq_self (p : Char → Bool) (c : Char) (l : List Char)
    (h : (c :: l).dropWhile p = c :: l) : p c = false := by
  cases hpa : p c with
  | false => rfl
  | true =>
    exfalso
    simp [List.dropWhile_cons, hpa] at h
    have hlen := (List.dropWhile_suffix (l := l) p).length_le
    have h2 := congrArg List.length h
    simp at h2
    omega

theorem trimList_idem (l : List Char) : trimList (trimList l) = trimList l := by
  have hstepA :
      ((l.dropWhile isJsWhitespace).reverse.dropWhile isJsWhitespace).reverse.dropWhile
          isJsWhitespace =
        ((l.dropWhile isJsWhitespace).reverse.dropWhile isJsWhitespace).reverse := by
    cases hvr :
        ((l.dropWhile isJsWhitespace).reverse.dropWhile isJsWhitespace).reverse with
    | nil => rfl
    | cons c t =>
      obtain ⟨u, hu⟩ :=
        exists_append_dropWhile isJsWhitespace (l.dropWhile isJsWhitespace).reverse
      have hw2 : l.dropWhile isJsWhitespace =
          ((l.dropWhile isJsWhitespace).reverse.dropWhile isJsWhitespace).reverse ++
            u.reverse := by
        have h3 := congrArg List.reverse hu
        simpa using h3.symm
      have hwfix := dropWhile_dropWhile_self isJsWhitespace l
      rw [hvr] at hw2
      rw [hw2] at hwfix
      have hc : isJsWhitespace c = false := by
        exact head_not_of_dropWhile_eq_self isJsWhitespace c (t ++ u.reverse)
          (by simpa using hwfix)
      simp [List.dropWhile_cons, hc]
  show (((((l.dropWhile isJsWhitespace).reverse.dropWhile isJsWhitespace).reverse).dropWhile
      isJsWhitespace).reverse.dropWhile isJsWhitespace).reverse = trimList l
  rw [hstepA, List.reverse_reverse, dropWhile_dropWhile_self]
  rfl

theorem trimList_eq_self_of_forall (l : List Char)
    (h : ∀ c ∈ l, isJsWhitespace c = false) : trimList l = l := by
  unfold trimList
  rw [dropWhile_eq_self_of_forall _ _ h,
    dropWhile_eq_self_of_forall _ _ (by intro c hc; exact h c (List.mem_reverse.mp hc)),
    List.reverse_reverse]

theorem jsTrim_idem (s : String) : jsTrim (jsTrim s) = jsTrim s :=
  congrArg String.mk (trimList_idem s.data)

theorem jsTrim_eq_self (s : String) (h : ∀ c ∈ s.data, isJsWhitespace c = false) :
    jsTrim s = s := by
  unfold jsTrim
  rw [trimList_eq_self_of_forall _ h]

theorem isUnreserved_not_ws (c : Char) (h : isUnreservedUriChar c = true) :
    isJsWhitespace c = false := by
  cases hws : isJsWhitespace c with
  | false => rfl
  | true =>
    exfalso
    simp [isJsWhitespace] at hws
    rcases hws with ((((h1 | h1) | h1) | h1) | h1) | h1 <;> subst h1 <;> revert h <;> decide

theorem hexDigit_not_ws : ∀ n < 16, isJsWhitespace (hexDigit n) = false := by decide

theorem pctEncodeByte_not_ws (b : Nat) :
    ∀ c ∈ pctEncodeByte b, isJsWhitespace c = false := by
  intro c hc
  simp [pctEncodeByte] at hc
  rcases hc with h | h | h
  · subst h; decide
  · subst h; exact hexDigit_not_ws _ (Nat.mod_lt _ (by decide))
  · subst h; exact hexDigit_not_ws _ (Nat.mod_lt _ (by decide))

theorem encChar_not_ws (c : Char) : ∀ d ∈ encChar c, isJsWhitespace d = false := by
  intro d hd
  unfold encChar at hd
  by_cases h : isUnreservedUriChar c = true
  · simp [h] at hd
    subst hd
    exact isUnreserved_not_ws _ h
  · simp [h, List.mem_flatMap] at hd
    obtain ⟨b, hb, hdb⟩ := hd
    exact pctEncodeByte_not_ws b d hdb

theorem encodeURIComponent_not_ws (s : String) :
    ∀ c ∈ (encodeURIComponent s).data, isJsWhitespace c = false := by
  intro c hc
  simp [encodeURIComponent, List.mem_flatMap] at hc
  obtain ⟨a, ha, hca⟩ := hc
  exact encChar_not_ws a c hca

theorem relay_chars_not_ws :
    ∀ c ∈ ("https://images.weserv.nl/?url=").data, isJsWhitespace c = false := by decide

theorem buildProxyUrl_data (v : String) :
    (buildProxyUrl v).data =
      ("https://images.weserv.nl/?url=").data ++ (encodeURIComponent (stripScheme v)).data :=
  data_append _ _

theorem jsTrim_buildProxyUrl (v : String) : jsTrim (buildProxyUrl v) = buildProxyUrl v := by
  apply jsTrim_eq_self
  rw [buildProxyUrl_data]
  intro c hc
  rcases List.mem_append.mp hc with h | h
  · exact relay_chars_not_ws c h
  · exact encodeURIComponent_not_ws _ c h

theorem bor_elim {a b : Bool} (h : (a || b) = true) : a = true ∨ b = true := by
  cases a
  · cases b
    · exact absurd h (by decide)
    · exact Or.inr rfl
  · exact Or.inl rfl

theorem isPrefixOf_append_self (l t : List Char) : l.isPrefixOf (l ++ t) = true := by
  induction l with
  | nil => cases t <;> rfl
  | cons a l ih => simp [List.isPrefixOf, List.cons_append, ih]

theorem buildProxyUrl_ne_empty (v : String) : ¬ buildProxyUrl v = ("") := by
  intro h
  have h2 : (buildProxyUrl v).data.length = 0 := by rw [h]; rfl
  rw [buildProxyUrl_data, List.length_append] at h2
  have h3 : ("https://images.weserv.nl/?url=").data.length = 30 := by decide
  omega

theorem isProxyUrl_buildProxyUrl (v : String) : isProxyUrl (buildProxyUrl v) = true := by
  have h8 : (buildProxyUrl v).data.drop 8 =
      ("images.weserv.nl/?url=").data ++ (encodeURIComponent (stripScheme v)).data := by
    rw [buildProxyUrl_data, List.drop_append_eq_append_drop]
    rw [show ("https://images.weserv.nl/?url=").data.drop 8 =
      ("images.weserv.nl/?url=").data from by decide]
    rw [show 8 - ("https://images.weserv.nl/?url=").data.length = 0 from by decide]
    rw [List.drop_zero]
  have hcontains : strContains (buildProxyUrl v) ("images.weserv.nl/?url=") = true := by
    unfold strContains
    rw [List.any_eq_true]
    refine ⟨8, ?_, ?_⟩
    · rw [List.mem_range, buildProxyUrl_data, List.length_append]
      have h3 : ("https://images.weserv.nl/?url=").data.length = 30 := by decide
      omega
    · rw [h8]
      exact isPrefixOf_append_self _ _
  simp [isProxyUrl, hcontains]

theorem displayCardImage_fixed (o : String) (p : Bool) (htrim : jsTrim o = o)
    (hcase : o = ("") ∨ p = false ∨ (isDataUrl o || isProxyUrl o) = true ∨
      isRemoteUrl o = false) :
    displayCardImage o p = o := by
  unfold displayCardImage
  rw [htrim]
  rcases hcase with h | h | h | h
  · simp [h]
  · simp [h]
  · rcases bor_elim h with h1 | h1 <;> simp [h1]
  · simp [h]

theorem displayCardImage_output_fixed (s : String) (p : Bool) :
    displayCardImage (displayCardImage s p) p = displayCardImage s p := by
  by_cases h1 : jsTrim s = ("")
  · have ho : displayCardImage s p = jsTrim s := by simp [displayCardImage, h1]
    rw [ho, h1]
    exact displayCardImage_fixed _ p (by decide) (Or.inl rfl)
  · by_cases h2 : (!p || isDataUrl (jsTrim s) || isProxyUrl (jsTrim s)) = true
    · have ho : displayCardImage s p = jsTrim s := by
        unfold displayCardImage
        rw [if_neg h1, if_pos h2]
      rw [ho]
      apply displayCardImage_fixed _ p (jsTrim_idem s)
      rcases bor_elim h2 with h3 | h3
      · rcases bor_elim h3 with h4 | h4
        · exact Or.inr (Or.inl (by simpa using h4))
        · exact Or.inr (Or.inr (Or.inl (by simp [h4])))
      · exact Or.inr (Or.inr (Or.inl (by simp [h3])))
    · by_cases h3 : isRemoteUrl (jsTrim s) = true
      · have ho : displayCardImage s p = buildProxyUrl (jsTrim s) := by
          unfold displayCardImage
          rw [if_neg h1, if_neg h2, if_pos h3]
        rw [ho]
        apply displayCardImage_fixed _ p (jsTrim_buildProxyUrl _)
        exact Or.inr (Or.inr (Or.inl (by simp [isProxyUrl_buildProxyUrl])))
      · have ho : displayCardImage s p = jsTrim s := by
          unfold displayCardImage
          rw [if_neg h1, if_neg h2, if_neg h3]
        rw [ho]
        apply displayCardImage_fixed _ p (jsTrim_idem s)
        exact Or.inr (Or.inr (Or.inr (by simpa using h3)))

/-- C5 counterexample: a remote URL that already contains a proxy marker is
returned unchanged by the display normalizer even with the proxy flag on, so
it is not rewritten to the relay base plus the percent-encoded stripped URL. -/
theorem displayCardImage_proxied_remote_cex :
    isRemoteUrl ("https://wsrv.nl/?url=a") = true ∧
    displayCardImage ("https://wsrv.nl/?url=a") true ≠
      ("https://images.weserv.nl/?url=") ++
        encodeURIComponent (stripScheme ("https://wsrv.nl/?url=a")) := by
  decide

/-- C5 (amended): for every remote http/https URL without surrounding
whitespace that is not a data/blob reference and does not contain a proxy
marker, the display normalizer with the proxy flag true returns exactly the
fixed relay base concatenated with the percent-encoding of the URL with its
scheme stripped, and with the proxy flag false returns the URL unchanged. -/
theorem displayCardImage_remote_rewrite (u : String) (h1 : jsTrim u = u)
    (h2 : isRemoteUrl u = true) (h3 : isDataUrl u = false) (h4 : isProxyUrl u = false) :
    displayCardImage u true =
      ("https://images.weserv.nl/?url=") ++ encodeURIComponent (stripScheme u) ∧
    displayCardImage u false = u := by
  have hne : ¬ u = ("") := by
    intro he
    subst he
    exact absurd h2 (by decide)
  constructor
  · have hcond : ¬((!true || isDataUrl u || isProxyUrl u) = true) := by simp [h3, h4]
    unfold displayCardImage
    rw [h1, if_neg hne, if_neg hcond, if_pos h2]
    rfl
  · have hcond : (!false || isDataUrl u || isProxyUrl u) = true := by simp
    unfold displayCardImage
    rw [h1, if_neg hne, if_pos hcond]

theorem displayCardImage_remote_rewrite_witness :
    displayCardImage ("http://a.com") true = ("https://images.weserv.nl/?url=a.com") ∧
    displayCardImage ("http://a.com") false = ("http://a.com") := by
  have h := displayCardImage_remote_rewrite ("http://a.com") (by decide) (by decide)
    (by decide) (by decide)
  exact ⟨h.1.trans (by decide), h.2⟩

/-- C6 counterexample: a data: reference padded with a trailing space is
classified as embedded-binary by the source classifier, yet the display
normalizer returns its trimmed form, not the string itself. -/
theorem displayCardImage_padded_data_cex :
    isDataUrl ("data:img ") = true ∧
    displayCardImage ("data:img ") true ≠ ("data:img ") := by
  decide

/-- C6 (amended): the display normalizer is the identity on every
whitespace-trimmed string classified as embedded-binary (data:), local-blob
(blob:), or already-proxied, for both values of the proxy flag; and
normalization is idempotent on its own output for every input and flag. -/
theorem displayCardImage_classified_identity (s : String) (p : Bool) :
    (jsTrim s = s → (isDataUrl s || isProxyUrl s) = true → displayCardImage s p = s) ∧
    displayCardImage (displayCardImage s p) p = displayCardImage s p := by
  constructor
  · intro h1 h2
    exact displayCardImage_fixed s p h1 (Or.inr (Or.inr (Or.inl h2)))
  · exact displayCardImage_output_fixed s p

theorem displayCardImage_classified_identity_witness :
    displayCardImage ("data:img") true = ("data:img") ∧
    displayCardImage (displayCardImage ("blob:xyz") false) false =
      displayCardImage ("blob:xyz") false :=
  ⟨(displayCardImage_classified_identity ("data:img") true).1 (by decide) (by decide),
   (displayCardImage_classified_identity ("blob:xyz") false).2⟩

theorem firstSuccess_cons (fetch : String → FetchResult) (c : String) (rest : List String) :
    firstSuccess fetch (c :: rest) =
      if isOkResponse (fetch c) then some (responseBody (fetch c))
      else firstSuccess fetch rest := by
  rw [firstSuccess.eq_def]
  cases hfc : fetch c with
  | failure => simp [isOkResponse, hfc]
  | response ok body => cases ok <;> simp [isOkResponse, responseBody, hfc]

/-- C4 counterexample: a remote URL padded with a trailing space satisfies the
claim's preconditions, yet when every candidate fetch fails the inlining step
returns the trimmed reference, not the original reference value. -/
theorem prepareImageForCapture_trim_cex :
    isRemoteUrl ("http://a.com ") = true ∧
    ("http://a.com ") ≠ ("") ∧
    isDataUrl ("http://a.com ") = false ∧
    prepareImageForCapture ("http://a.com ") true (fun _ => FetchResult.failure) id ≠
      ("http://a.com ") := by
  decide

/-- C4 (amended): for every image reference whose trimmed value is non-empty,
a remote http/https URL, and not a data/blob reference, the inlining step tries
the candidates in order — the proxied form first when the proxy flag is true,
then the trimmed raw URL — returns the embedded-binary conversion of the body
of the first candidate whose fetch yields an ok response, and when every
candidate fails returns the trimmed original reference so the pipeline
proceeds. -/
theorem prepareImageForCapture_candidates (value : String)
    (fetch : String → FetchResult) (toDataUrl : String → String)
    (h1 : ¬ jsTrim value = ("")) (h2 : isDataUrl (jsTrim value) = false)
    (h3 : isRemoteUrl (jsTrim value) = true) :
    (isOkResponse (fetch (buildProxyUrl (jsTrim value))) = true →
      prepareImageForCapture value true fetch toDataUrl =
        toDataUrl (responseBody (fetch (buildProxyUrl (jsTrim value))))) ∧
    (isOkResponse (fetch (buildProxyUrl (jsTrim value))) = false →
      isOkResponse (fetch (jsTrim value)) = true →
      prepareImageForCapture value true fetch toDataUrl =
        toDataUrl (responseBody (fetch (jsTrim value)))) ∧
    (isOkResponse (fetch (buildProxyUrl (jsTrim value))) = false →
      isOkResponse (fetch (jsTrim value)) = false →
      prepareImageForCapture value true fetch toDataUrl = jsTrim value) ∧
    (isOkResponse (fetch (jsTrim value)) = true →
      prepareImageForCapture value false fetch toDataUrl =
        toDataUrl (responseBody (fetch (jsTrim value)))) ∧
    (isOkResponse (fetch (jsTrim value)) = false →
      prepareImageForCapture value false fetch toDataUrl = jsTrim value) := by
  have hblob : startsWithStr (jsTrim value) ("blob:") = false := by
    unfold isDataUrl at h2
    exact (Bool.or_eq_false_iff.mp h2).2
  refine ⟨?_, ?_, ?_, ?_, ?_⟩
  · intro hok
    have hfs : firstSuccess fetch [buildProxyUrl (jsTrim value), jsTrim value] =
        some (responseBody (fetch (buildProxyUrl (jsTrim value)))) := by
      rw [firstSuccess_cons, if_pos hok]
    simp [prepareImageForCapture, h1, h2, hblob, h3, hfs]
  · intro hko hok
    have hfs : firstSuccess fetch [buildProxyUrl (jsTrim value), jsTrim value] =
        some (responseBody (fetch (jsTrim value))) := by
      rw [firstSuccess_cons, if_neg (by simp [hko]), firstSuccess_cons, if_pos hok]
    simp [prepareImageForCapture, h1, h2, hblob, h3, hfs]
  · intro hko hko2
    have hfs : firstSuccess fetch [buildProxyUrl (jsTrim value), jsTrim value] = none := by
      rw [firstSuccess_cons, if_neg (by simp [hko]), firstSuccess_cons,
        if_neg (by simp [hko2])]
      rfl
    simp [prepareImageForCapture, h1, h2, hblob, h3, hfs]
  · intro hok
    have hfs : firstSuccess fetch [jsTrim value] =
        some (responseBody (fetch (jsTrim value))) := by
      rw [firstSuccess_cons, if_pos hok]
    simp [prepareImageForCapture, h1, h2, hblob, h3, hfs]
  · intro hko
    have hfs : firstSuccess fetch [jsTrim value] = none := by
      rw [firstSuccess_cons, if_neg (by simp [hko])]
      rfl
    simp [prepareImageForCapture, h1, h2, hblob, h3, hfs]

theorem prepareImageForCapture_candidates_witness :
    prepareImageForCapture ("http://a.com") false
      (fun u => if u = ("http://a.com") then FetchResult.response true ("BODY")
        else FetchResult.failure)
      (fun b => ("data:application/octet-stream;base64,") ++ b) =
      ("data:application/octet-stream;base64,BODY") := by
  have h := prepareImageForCapture_candidates ("http://a.com")
    (fun u => if u = ("http://a.com") then FetchResult.response true ("BODY")
      else FetchResult.failure)
    (fun b => ("data:application/octet-stream;base64,") ++ b)
    (by decide) (by decide) (by decide)
  exact (h.2.2.2.1 (by decide)).trans (by decide)

/-- C7: the capture-readiness waiter resolves immediately on zero images, does
not wait for an image already complete with nonzero natural width, treats a
load or an error event alike as settling an image, and resolves exactly when
every image is either already ready or has received its load-or-error event. -/
theorem waitForImages_resolution (imgs : List (ImgElement × Option ImgEvent)) :
    (imgs = [] → waitForImagesResolved imgs = true) ∧
    (∀ q ∈ imgs, imgReadyNow q.1 = true → imgResolved q.1 q.2 = true) ∧
    (∀ q ∈ imgs, ∀ e, q.2 = some e → imgResolved q.1 q.2 = true) ∧
    (waitForImagesResolved imgs = true ↔ ∀ q ∈ imgs, imgResolved q.1 q.2 = true) := by
  refine ⟨?_, ?_, ?_, ?_⟩
  · intro h
    subst h
    rfl
  · intro q hq h
    simp [imgResolved, h]
  · intro q hq e he
    simp [imgResolved, he]
  · constructor
    · intro h q hq
      cases imgs with
      | nil => cases hq
      | cons a l =>
        have hall : (a :: l).all (fun r => imgResolved r.1 r.2) = true := by
          simpa [waitForImagesResolved] using h
        exact List.all_eq_true.mp hall q hq
    · intro h
      cases imgs with
      | nil => rfl
      | cons a l =>
        have hall : (a :: l).all (fun r => imgResolved r.1 r.2) = true :=
          List.all_eq_true.mpr h
        simp [waitForImagesResolved, hall]

theorem waitForImages_resolution_witness :
    waitForImagesResolved
      [(ImgElement.mk true 5, none), (ImgElement.mk false 0, some ImgEvent.error)] =
      true := by
  have h := waitForImages_resolution
    [(ImgElement.mk true 5, none), (ImgElement.mk false 0, some ImgEvent.error)]
  exact h.2.2.2.mpr (by decide)

theorem nil_isPrefixOf (m : List Char) : ([] : List Char).isPrefixOf m = true := by
  cases m <;> rfl

theorem specStripPercents_eq_filter (l : List Char) :
    specStripPercents l = ⟨l.filter fun c => c ≠ '%'⟩ := by
  induction l with
  | nil => rfl
  | cons a l ih =>
    simp only [specStripPercents, List.foldr_cons, List.filter_cons] at ih ⊢
    by_cases h : a = '%'
    · rw [if_pos h, ih]
      congr 1
      simp [h]
    · rw [if_neg h, ih]
      have hd : (decide (a ≠ '%')) = true := by simp [h]
      rw [hd]
      simp only [if_pos]
      rfl

theorem dropLeadingSign_eq_spec (x : String) :
    dropLeadingSign x =
      if startsWithStr x ("+") || startsWithStr x ("-") then (⟨x.data.drop 1⟩ : String)
      else x := by
  obtain ⟨l⟩ := x
  cases l with
  | nil => decide
  | cons c rest =>
    by_cases h1 : c = '+'
    · subst h1
      simp [dropLeadingSign, startsWithStr, List.isPrefixOf, nil_isPrefixOf]
    · by_cases h2 : c = '-'
      · subst h2
        simp [dropLeadingSign, startsWithStr, List.isPrefixOf, nil_isPrefixOf]
      · have h1b : ¬ '+' = c := fun he => h1 he.symm
        have h2b : ¬ '-' = c := fun he => h2 he.symm
        simp [dropLeadingSign, startsWithStr, List.isPrefixOf, nil_isPrefixOf, h1, h2,
          h1b, h2b]

theorem removePercent_eq_spec (x : String) : removePercent x = specStripPercents x.data := by
  rw [specStripPercents_eq_filter]
  rfl

theorem normalizedChange_eq_spec (s : String) :
    normalizedChange s = specNormalizedChange s := by
  simp only [normalizedChange, specNormalizedChange]
  rw [dropLeadingSign_eq_spec, removePercent_eq_spec]

/-- C8 counterexample: an input with an interior percent character has no
leading sign and no percent suffix, so the claim demands it be displayed
verbatim between the sign and the suffix; the classic renderer instead removes
every percent character. -/
theorem changeText_interior_percent_cex :
    classicChangeText ("3%7") TrendDirection.up ≠ ("+") ++ ("3%7") ++ ("%") := by
  decide

/-- C8 (amended): for every change-percent input and trend, the displayed
change text equals the trimmed input with one leading sign and every percent
character removed (zero substituted when nothing remains), prefixed with +
for trend up and - for trend down and suffixed with the percent sign; both
renderers agree, input 375 with trend up displays +375 percent, and input
-12 percent with trend down normalizes to 12 and displays -12 percent. -/
theorem changeText_normalization (s : String) (t : TrendDirection) :
    classicChangeText s t =
      (if t = TrendDirection.down then ("-") else ("+")) ++
        specNormalizedChange s ++ ("%") ∧
    impactChangeText s t = classicChangeText s t ∧
    classicChangeText ("375") TrendDirection.up = ("+375%") ∧
    classicChangeText ("-12%") TrendDirection.down = ("-12%") := by
  refine ⟨?_, rfl, by decide, by decide⟩
  unfold classicChangeText
  rw [normalizedChange_eq_spec]

/-- C10: when the trimmed change-percent input becomes empty after stripping
the leading sign and all percent characters, both renderers substitute zero,
displaying +0 percent for trend up and -0 percent for trend down. -/
theorem changeText_empty_zero (s : String)
    (h : removePercent (dropLeadingSign (jsTrim s)) = ("")) :
    classicChangeText s TrendDirection.up = ("+0%") ∧
    classicChangeText s TrendDirection.down = ("-0%") ∧
    impactChangeText s TrendDirection.up = ("+0%") ∧
    impactChangeText s TrendDirection.down = ("-0%") := by
  refine ⟨?_, ?_, ?_, ?_⟩ <;>
    · simp only [classicChangeText, impactChangeText, normalizedChange, h]
      decide

theorem changeText_empty_zero_witness :
    classicChangeText ("+%") TrendDirection.up = ("+0%") ∧
    classicChangeText ("+%") TrendDirection.down = ("-0%") ∧
    impactChangeText ("+%") TrendDirection.up = ("+0%") ∧
    impactChangeText ("+%") TrendDirection.down = ("-0%") :=
  changeText_empty_zero ("+%") (by decide)

/-- C9: for every template, trend, and format, the computed download filename
is exactly pokemon-thumbnail-(template)-(trend).(ext) with ext png for PNG and
jpg for JPEG. -/
theorem formatFilename_pattern :
    formatFilename TrendDirection.up ExportFormat.png TemplateVariant.classic =
      ("pokemon-thumbnail-classic-up.png") ∧
    formatFilename TrendDirection.down ExportFormat.png TemplateVariant.classic =
      ("pokemon-thumbnail-classic-down.png") ∧
    formatFilename TrendDirection.up ExportFormat.jpeg TemplateVariant.classic =
      ("pokemon-thumbnail-classic-up.jpg") ∧
    formatFilename TrendDirection.down ExportFormat.jpeg TemplateVariant.classic =
      ("pokemon-thumbnail-classic-down.jpg") ∧
    formatFilename TrendDirection.up ExportFormat.png TemplateVariant.impact =
      ("pokemon-thumbnail-impact-up.png") ∧
    formatFilename TrendDirection.down ExportFormat.png TemplateVariant.impact =
      ("pokemon-thumbnail-impact-down.png") ∧
    formatFilename TrendDirection.up ExportFormat.jpeg TemplateVariant.impact =
      ("pokemon-thumbnail-impact-up.jpg") ∧
    formatFilename TrendDirection.down ExportFormat.jpeg TemplateVariant.impact =
      ("pokemon-thumbnail-impact-down.jpg") := by
  decide

theorem ite_restore (b : Bool) (x y : String) :
    (if b then y else if b then x else y) = y := by
  cases b <;> rfl

theorem downloadThumbnail_run (st : EditorState) (useProxy : Bool)
    (trend : TrendDirection) (fmt : ExportFormat) (tpl : TemplateVariant)
    (env : ExportEnv) (hroot : env.hasRoot = true) (hidle : st.isDownloading = false) :
    downloadThumbnail st useProxy trend fmt tpl env =
      match env.primary, env.fallback with
      | Except.ok d, _ =>
        ⟨⟨st.cardImage, false⟩, [(d, formatFilename trend fmt tpl)], []⟩
      | Except.error _, Except.ok d =>
        ⟨⟨st.cardImage, false⟩, [(d, formatFilename trend fmt tpl)], []⟩
      | Except.error _, Except.error e =>
        ⟨⟨st.cardImage, false⟩, [], [alertMessage e]⟩ := by
  cases hp : env.primary with
  | ok d => simp [downloadThumbnail, hroot, hidle, hp, ite_restore]
  | error e =>
    cases hf : env.fallback with
    | ok d => simp [downloadThumbnail, hroot, hidle, hp, hf, ite_restore]
    | error e2 => simp [downloadThumbnail, hroot, hidle, hp, hf, ite_restore]

/-- C1: in every export run that passes the entry guard, if the primary
capture strategy succeeds its encoded result is downloaded under the computed
filename and no alert is raised; if the primary throws and the fallback
succeeds, the fallback's result is downloaded and no alert is raised; and if
and only if both strategies fail, nothing is downloaded and a single alert
containing the error text is shown. -/
theorem downloadThumbnail_capture_outcomes (st : EditorState) (useProxy : Bool)
    (trend : TrendDirection) (fmt : ExportFormat) (tpl : TemplateVariant)
    (env : ExportEnv) (hroot : env.hasRoot = true) (hidle : st.isDownloading = false) :
    (∀ d, env.primary = Except.ok d →
      (downloadThumbnail st useProxy trend fmt tpl env).downloads =
        [(d, formatFilename trend fmt tpl)] ∧
      (downloadThumbnail st useProxy trend fmt tpl env).alerts = []) ∧
    (∀ e d, env.primary = Except.error e → env.fallback = Except.ok d →
      (downloadThumbnail st useProxy trend fmt tpl env).downloads =
        [(d, formatFilename trend fmt tpl)] ∧
      (downloadThumbnail st useProxy trend fmt tpl env).alerts = []) ∧
    (∀ e e2, env.primary = Except.error e → env.fallback = Except.error e2 →
      (downloadThumbnail st useProxy trend fmt tpl env).downloads = [] ∧
      (downloadThumbnail st useProxy trend fmt tpl env).alerts = [alertMessage e2] ∧
      ∃ pre post, alertMessage e2 = pre ++ e2 ++ post) ∧
    ((downloadThumbnail st useProxy trend fmt tpl env).alerts ≠ [] ↔
      ∃ e e2, env.primary = Except.error e ∧ env.fallback = Except.error e2) := by
  rw [downloadThumbnail_run st useProxy trend fmt tpl env hroot hidle]
  rcases hp : env.primary with e | d <;> rcases hf : env.fallback with e2 | d2
  · refine ⟨?_, ?_, ?_, ?_⟩
    · intro d hd
      exact Except.noConfusion hd
    · intro e' d hd hf2
      exact Except.noConfusion hf2
    · intro e' e2' hd hf2
      injection hf2 with hfe
      subst hfe
      exact ⟨rfl, rfl,
        ("Download failed. Enable the image proxy or upload the image instead of using a URL. ("),
        (")"), rfl⟩
    · constructor
      · intro h
        exact ⟨e, e2, rfl, rfl⟩
      · intro h hc
        exact List.noConfusion hc
  · refine ⟨?_, ?_, ?_, ?_⟩
    · intro d hd
      exact Except.noConfusion hd
    · intro e' d hd hf2
      injection hf2 with hfe
      subst hfe
      exact ⟨rfl, rfl⟩
    · intro e' e2' hd hf2
      exact Except.noConfusion hf2
    · constructor
      · intro h
        exact absurd rfl h
      · rintro ⟨e', e2', hd, hf2⟩
        exact Except.noConfusion hf2
  · refine ⟨?_, ?_, ?_, ?_⟩
    · intro d' hd
      injection hd with hde
      subst hde
      exact ⟨rfl, rfl⟩
    · intro e' d' hd hf2
      exact Except.noConfusion hd
    · intro e' e2' hd hf2
      exact Except.noConfusion hd
    · constructor
      · intro h
        exact absurd rfl h
      · rintro ⟨e', e2', hd, hf2⟩
        exact Except.noConfusion hd
  · refine ⟨?_, ?_, ?_, ?_⟩
    · intro d' hd
      injection hd with hde
      subst hde
      exact ⟨rfl, rfl⟩
    · intro e' d' hd hf2
      exact Except.noConfusion hd
    · intro e' e2' hd hf2
      exact Except.noConfusion hd
    · constructor
      · intro h
        exact absurd rfl h
      · rintro ⟨e', e2', hd, hf2⟩
        exact Except.noConfusion hd

theorem downloadThumbnail_capture_outcomes_witness :
    (downloadThumbnail (EditorState.mk ("img") false) true TrendDirection.up
      ExportFormat.png TemplateVariant.classic
      (ExportEnv.mk true (fun _ => FetchResult.failure) id
        (Except.error ("boom")) (Except.error ("crash")))).downloads = [] ∧
    (downloadThumbnail (EditorState.mk ("img") false) true TrendDirection.up
      ExportFormat.png TemplateVariant.classic
      (ExportEnv.mk true (fun _ => FetchResult.failure) id
        (Except.error ("boom")) (Except.error ("crash")))).alerts =
      [alertMessage ("crash")] := by
  have h := downloadThumbnail_capture_outcomes (EditorState.mk ("img") false) true
    TrendDirection.up ExportFormat.png TemplateVariant.classic
    (ExportEnv.mk true (fun _ => FetchResult.failure) id
      (Except.error ("boom")) (Except.error ("crash"))) rfl rfl
  have h3 := h.2.2.1 ("boom") ("crash") rfl rfl
  exact ⟨h3.1, h3.2.1⟩

/-- C2: every export run that passes the entry guard finishes with the stored
image reference equal to its value before the run and the in-flight flag
cleared, on the primary path, the fallback path, and the alert path alike. -/
theorem downloadThumbnail_restores_state (st : EditorState) (useProxy : Bool)
    (trend : TrendDirection) (fmt : ExportFormat) (tpl : TemplateVariant)
    (env : ExportEnv) (hroot : env.hasRoot = true) (hidle : st.isDownloading = false) :
    (downloadThumbnail st useProxy trend fmt tpl env).state.cardImage = st.cardImage ∧
    (downloadThumbnail st useProxy trend fmt tpl env).state.isDownloading = false := by
  rw [downloadThumbnail_run st useProxy trend fmt tpl env hroot hidle]
  rcases env.primary with e | d
  · rcases env.fallback with e2 | d2 <;> exact ⟨rfl, rfl⟩
  · exact ⟨rfl, rfl⟩

theorem downloadThumbnail_restores_state_witness :
    (downloadThumbnail (EditorState.mk ("http://img.example/x") false) true
      TrendDirection.up ExportFormat.png TemplateVariant.classic
      (ExportEnv.mk true (fun _ => FetchResult.response true ("RAW"))
        (fun b => ("data:,") ++ b) (Except.ok ("DATA"))
        (Except.error ("e")))).state.cardImage = ("http://img.example/x") ∧
    (downloadThumbnail (EditorState.mk ("http://img.example/x") false) true
      TrendDirection.up ExportFormat.png TemplateVariant.classic
      (ExportEnv.mk true (fun _ => FetchResult.response true ("RAW"))
        (fun b => ("data:,") ++ b) (Except.ok ("DATA"))
        (Except.error ("e")))).state.isDownloading = false :=
  downloadThumbnail_restores_state (EditorState.mk ("http://img.example/x") false) true
    TrendDirection.up ExportFormat.png TemplateVariant.classic
    (ExportEnv.mk true (fun _ => FetchResult.response true ("RAW"))
      (fun b => ("data:,") ++ b) (Except.ok ("DATA")) (Except.error ("e"))) rfl rfl

/-- C3: an export request arriving while the in-flight flag is set, or while
no composition root is attached, returns with the state unchanged and no
download or alert; consequently two overlapping export invocations in which
some capture strategy of the first succeeds yield exactly one download in
total, and the displayed image is restored exactly once, by the first run. -/
theorem downloadThumbnail_single_flight (st : EditorState) (useProxy : Bool)
    (trend : TrendDirection) (fmt : ExportFormat) (tpl : TemplateVariant)
    (env env2 : ExportEnv) :
    (st.isDownloading = true →
      downloadThumbnail st useProxy trend fmt tpl env2 = ⟨st, [], []⟩) ∧
    (env.hasRoot = false →
      downloadThumbnail st useProxy trend fmt tpl env = ⟨st, [], []⟩) ∧
    (st.isDownloading = false → env.hasRoot = true → ∀ d,
      (env.primary = Except.ok d ∨
        ((∃ e, env.primary = Except.error e) ∧ env.fallback = Except.ok d)) →
      ∀ midImage,
        ((downloadThumbnail st useProxy trend fmt tpl env).downloads ++
          (downloadThumbnail (EditorState.mk midImage true) useProxy trend fmt tpl
            env2).downloads).length = 1 ∧
        (downloadThumbnail st useProxy trend fmt tpl env).state.cardImage =
          st.cardImage ∧
        (downloadThumbnail st useProxy trend fmt tpl env).state.isDownloading = false) := by
  have hguard : ∀ (s2 : EditorState) (e2 : ExportEnv), s2.isDownloading = true →
      downloadThumbnail s2 useProxy trend fmt tpl e2 = ⟨s2, [], []⟩ := by
    intro s2 e2 h
    simp [downloadThumbnail, h]
  refine ⟨fun h => hguard st env2 h, ?_, ?_⟩
  · intro h
    simp [downloadThumbnail, h]
  · intro hidle hroot d hd midImage
    have hsecond := hguard (EditorState.mk midImage true) env2 rfl
    rw [downloadThumbnail_run st useProxy trend fmt tpl env hroot hidle, hsecond]
    rcases hd with hd | ⟨⟨e, he⟩, hf⟩
    · rw [hd]
      exact ⟨rfl, rfl, rfl⟩
    · rw [he, hf]
      exact ⟨rfl, rfl, rfl⟩

theorem downloadThumbnail_single_flight_witness :
    downloadThumbnail (EditorState.mk ("busy") true) false TrendDirection.down
      ExportFormat.jpeg TemplateVariant.impact
      (ExportEnv.mk true (fun _ => FetchResult.failure) id
        (Except.ok ("D")) (Except.ok ("F"))) =
      RunResult.mk (EditorState.mk ("busy") true) [] [] :=
  (downloadThumbnail_single_flight (EditorState.mk ("busy") true) false
    TrendDirection.down ExportFormat.jpeg TemplateVariant.impact
    (ExportEnv.mk true (fun _ => FetchResult.failure) id
      (Except.ok ("D")) (Except.ok ("F")))
    (ExportEnv.mk true (fun _ => FetchResult.failure) id
      (Except.ok ("D")) (Except.ok ("F")))).1 rfl

end ThumbnailApp
